import Mathlib

/-!
Verification development for the SB 988 compliance simulator core
(sb988_simulator/src/core): a shallow embedding of the entity model
(entities.py) and the simulation engine (simulation_engine.py), with
theorems about the stepping loop, the convergence check, the derived
aggregates and the identifier discipline.

Modelling conventions:
- A Python datetime is a count of seconds (Nat); a Python date is a count
  of days (Nat); datetime.date() is division by 86400.  Comparison of
  datetimes and of dates is numeric comparison, as in Python.
- Python float and Decimal values are modelled as exact rationals.  Every
  arithmetic step relevant to the claims (means, variances, rate ratios)
  is exact at the inputs the theorems touch.
- A Python dict is an insertion-ordered association list; dict.values()
  is the list of second components in order.
- Injected callables (behavioral models, scenarios, the metrics
  collector) mutate state in place in Python; here each is a pure
  function from its documented arguments to the new value of what it is
  documented to mutate (spec sections 4.3, 4.4 and 6: side-effect-only
  contracts on the entities handed to them).
-/

namespace SB988

/-- A point in simulated time: seconds, mirroring a Python datetime. -/
abbrev Time := Nat

/-- A calendar day: days, mirroring a Python date. -/
abbrev Day := Nat

/-- datetime.date(): truncate a time to its calendar day. -/
def dateOf (t : Time) : Day := t / 86400

/-- Seconds in one day, the default time step (timedelta(days=1)). -/
def oneDay : Nat := 86400

/-- Days from 1970-01-01 to the given proleptic Gregorian calendar date
(civil-calendar day-number algorithm); used to write concrete dates such
as 2024-01-01 in witnesses. -/
def daysFromCivil (y m d : Int) : Int :=
  let y := if m ≤ 2 then y - 1 else y
  let era := Int.fdiv (if y ≥ 0 then y else y - 399) 400
  let yoe := y - era * 400
  let mp := Int.emod (m + 9) 12
  let doy := Int.fdiv (153 * mp + 2) 5 + d - 1
  let doe := yoe * 365 + Int.fdiv yoe 4 - Int.fdiv yoe 100 + doy
  era * 146097 + doe - 719468

/-- The day number of a Gregorian calendar date. -/
def mkDay (y m d : Nat) : Day := (daysFromCivil y m d).toNat

/-- Midnight of a Gregorian calendar date, as a time. -/
def mkTime (y m d : Nat) : Time := mkDay y m d * 86400

/-! ### Enumerations (entities.py) -/

/-- FreelancerType: types of freelancers based on work characteristics. -/
inductive FreelancerType where
  | independent_contractor
  | gig_worker
  | consultant
  | creative_professional
  | technical_specialist
deriving DecidableEq, Repr

/-- ClientType: types of clients based on organization characteristics. -/
inductive ClientType where
  | small_business
  | medium_enterprise
  | large_corporation
  | startup
  | non_profit
  | government
deriving DecidableEq, Repr

/-- ContractStatus: contract lifecycle states. -/
inductive ContractStatus where
  | draft
  | negotiating
  | active
  | completed
  | terminated
  | disputed
deriving DecidableEq, Repr

/-- The .value string of a ContractStatus member, as compared by the
engine (status.value == "active"). -/
def ContractStatus.value : ContractStatus → String
  | .draft => "draft"
  | .negotiating => "negotiating"
  | .active => "active"
  | .completed => "completed"
  | .terminated => "terminated"
  | .disputed => "disputed"

/-- ComplianceStatus: SB 988 compliance states. -/
inductive ComplianceStatus where
  | compliant
  | non_compliant
  | pending_review
  | disputed
deriving DecidableEq, Repr

/-- The .value string of a ComplianceStatus member, as compared by the
engine (sb988_compliant.value == "compliant"). -/
def ComplianceStatus.value : ComplianceStatus → String
  | .compliant => "compliant"
  | .non_compliant => "non_compliant"
  | .pending_review => "pending_review"
  | .disputed => "disputed"

/-! ### Entities (entities.py) -/

/-- Freelancer: a freelancer in the ecosystem.  Field order and defaults
follow the dataclass. -/
structure Freelancer where
  id : String
  name : String
  freelancer_type : FreelancerType
  skills : List String
  experience_years : ℚ
  hourly_rate : ℚ
  location : String
  created_at : Time
  sb988_aware : Bool := false
  compliance_preference : String := "neutral"
  administrative_capacity : ℚ := 1/2
  annual_income : Option ℚ := none
  primary_client_dependency : ℚ := 0
  risk_tolerance : ℚ := 1/2
  negotiation_skill : ℚ := 1/2
  market_knowledge : ℚ := 1/2
deriving DecidableEq, Repr

/-- Freelancer.__post_init__: an empty id is replaced with a freshly
generated token (str(uuid.uuid4()) in the source; the generated token is
passed in explicitly here since uuid4 draws randomness). -/
def Freelancer.postInit (f : Freelancer) (generated : String) : Freelancer :=
  if f.id = "" then { f with id := generated } else f

/-- Client: a client organization in the ecosystem. -/
structure Client where
  id : String
  name : String
  client_type : ClientType
  industry : String
  size : String
  location : String
  created_at : Time
  annual_revenue : Option ℚ := none
  freelancer_spend_budget : Option ℚ := none
  sb988_awareness : ℚ := 1/2
  compliance_priority : String := "medium"
  legal_resources : ℚ := 1/2
  risk_aversion : ℚ := 1/2
  negotiation_power : ℚ := 1/2
  market_influence : ℚ := 1/2
deriving DecidableEq, Repr

/-- Client.__post_init__: same empty-id replacement as Freelancer. -/
def Client.postInit (c : Client) (generated : String) : Client :=
  if c.id = "" then { c with id := generated } else c

/-- Contract: a contract between a freelancer and a client.  The three
Optional list fields default to none, as in the dataclass, and are
normalized by postInit.  Milestone records (Dict[str, Any] in the
source) are modelled as string-keyed association lists of strings. -/
structure Contract where
  id : String
  freelancer_id : String
  client_id : String
  title : String
  description : String
  status : ContractStatus
  created_at : Time
  start_date : Option Day := none
  end_date : Option Day := none
  total_value : ℚ := 0
  payment_terms : String := "net_30"
  currency : String := "USD"
  estimated_hours : Option ℚ := none
  actual_hours : Option ℚ := none
  deliverables : Option (List String) := none
  milestones : Option (List (List (String × String))) := none
  sb988_compliant : ComplianceStatus := ComplianceStatus.pending_review
  compliance_score : ℚ := 0
  compliance_requirements : Option (List String) := none
  administrative_burden_score : ℚ := 0
  exclusivity_clause : Bool := false
  location_requirements : Option String := none
  equipment_provided : Bool := false
  supervision_level : String := "minimal"
deriving DecidableEq, Repr

/-- Contract.__post_init__: empty-id replacement plus fresh empty lists
for the three Optional list fields (never a shared default). -/
def Contract.postInit (c : Contract) (generated : String) : Contract :=
  let c := if c.id = "" then { c with id := generated } else c
  let c := if c.deliverables = none then { c with deliverables := some [] } else c
  let c := if c.milestones = none then { c with milestones := some [] } else c
  if c.compliance_requirements = none then
    { c with compliance_requirements := some [] }
  else c

/-- Transaction: a financial transaction in the ecosystem. -/
structure Transaction where
  id : String
  contract_id : String
  freelancer_id : String
  client_id : String
  amount : ℚ
  transaction_date : Time
  payment_method : String
  status : String
  compliance_costs : ℚ := 0
  administrative_overhead : ℚ := 0
  dispute_costs : ℚ := 0
  description : Option String := none
  reference_number : Option String := none
deriving DecidableEq, Repr

/-- Transaction.__post_init__: empty-id replacement. -/
def Transaction.postInit (t : Transaction) (generated : String) : Transaction :=
  if t.id = "" then { t with id := generated } else t

/-- MarketSnapshot: the state of the market at a point in time. -/
structure MarketSnapshot where
  timestamp : Time
  total_freelancers : Nat
  total_clients : Nat
  active_contracts : Nat
  total_transaction_volume : ℚ
  average_hourly_rate : ℚ
  compliance_rate : ℚ
  market_demand : ℚ := 1/2
  regulatory_pressure : ℚ := 1/2
  economic_uncertainty : ℚ := 1/2
deriving DecidableEq, Repr

/-! ### Simulation engine (simulation_engine.py) -/

/-- SimulationConfig: configuration for simulation runs, with the
dataclass defaults. -/
structure SimulationConfig where
  start_date : Time
  end_date : Time
  time_step : Nat := oneDay
  initial_freelancers : Nat := 1000
  initial_clients : Nat := 500
  market_volatility : ℚ := 1/10
  regulatory_enforcement_level : ℚ := 1/2
  agent_interaction_probability : ℚ := 1/10
  contract_formation_rate : ℚ := 1/20
  base_hourly_rate : ℚ := 50
  inflation_rate : ℚ := 3/100
  sb988_enforcement_date : Option Time := none
  compliance_grace_period : Nat := 90
  random_seed : Option Nat := none
  max_iterations : Nat := 10000
  convergence_threshold : ℚ := 1/1000
deriving DecidableEq, Repr

/-- An insertion-ordered Python dict keyed by entity id. -/
abbrev EntityMap (α : Type) := List (String × α)

/-- dict.values(): the stored entities in insertion order. -/
def EntityMap.values {α : Type} (m : EntityMap α) : List α :=
  m.map Prod.snd

/-- The three entity dicts handed together to market-dynamics models and
scenarios (freelancers, clients, contracts). -/
abbrev Maps := EntityMap Freelancer × EntityMap Client × EntityMap Contract

/-- Modelled from the spec: scenario.py is absent from src/, so the
Scenario capability set comes from spec section 4.3: an activation check
over simulated time, an apply operation that mutates the entity
mappings in place (here: returns their new contents), and a
scenario-specific results value. -/
structure Scenario (ρ : Type) where
  is_active : Time → Bool
  apply : EntityMap Freelancer → EntityMap Client → EntityMap Contract → Time → Maps
  get_results : ρ

/-- The injected strategy slots of the engine together with the metrics
collector operations.  The three behavioral-model slots are optional and
default to absent, as in SimulationEngine.__init__; the scenario list is
the registration-ordered result of add_scenario calls.  Each behavior
model receives its documented arguments and returns the new value of the
agent it mutates (spec section 6: side-effect-only contracts).

Modelled from the spec (metrics.py is absent from src/): the metrics
collector accumulates an arbitrary state of type mu via
collect_step_metrics, called with the full entity/transaction state and
current time, and reports a summary of type sg via get_summary (spec
section 4.4). -/
structure Models (μ σ ρ : Type) where
  freelancer_behavior_model :
    Option (Freelancer → Option MarketSnapshot → List Client → Time → Freelancer) := none
  client_behavior_model :
    Option (Client → Option MarketSnapshot → List Freelancer → Time → Client) := none
  market_dynamics_model :
    Option (EntityMap Freelancer → EntityMap Client → EntityMap Contract → Time → Maps) := none
  scenarios : List (Scenario ρ) := []
  collect_step_metrics :
    μ → EntityMap Freelancer → EntityMap Client → EntityMap Contract →
    List Transaction → Time → μ
  get_summary : μ → σ

/-- The mutable state of a SimulationEngine: current simulated time, the
three identity-keyed entity dicts, the transaction log, the market
snapshot log and the metrics collector state.  The configuration and
the injected strategies are immutable for the run and are passed as
separate arguments to every operation. -/
structure EngineState (μ : Type) where
  current_time : Time
  freelancers : EntityMap Freelancer := []
  clients : EntityMap Client := []
  contracts : EntityMap Contract := []
  transactions : List Transaction := []
  market_snapshots : List MarketSnapshot := []
  metrics_collector : μ

/-- The state of a freshly constructed SimulationEngine(config): time at
the configured start date, all collections empty. -/
def initEngineState {μ : Type} (cfg : SimulationConfig) (m0 : μ) : EngineState μ :=
  { current_time := cfg.start_date, metrics_collector := m0 }

/-- np.mean of a list of rationals: sum divided by length. -/
def npMean (xs : List ℚ) : ℚ := xs.sum / xs.length

/-- np.var of a list of rationals (population variance, the numpy
default): mean of the squared deviations from the mean. -/
def npVar (xs : List ℚ) : ℚ :=
  (xs.map (fun x => (x - npMean xs) ^ 2)).sum / xs.length

/-- _calculate_average_hourly_rate: 0 with no freelancers, otherwise the
np.mean of all current freelancers' hourly rates. -/
def calculateAverageHourlyRate {μ : Type} (s : EngineState μ) : ℚ :=
  if s.freelancers.isEmpty then 0
  else npMean (s.freelancers.values.map (fun f => f.hourly_rate))

/-- _calculate_compliance_rate: 0 with no contracts, otherwise the count
of contracts whose compliance value is the compliant string, divided by
the total contract count. -/
def calculateComplianceRate {μ : Type} (s : EngineState μ) : ℚ :=
  if s.contracts.isEmpty then 0
  else
    (s.contracts.values.countP
      (fun c => c.sb988_compliant.value == "compliant") : ℚ) /
    (s.contracts.length : ℚ)

/-- The MarketSnapshot built by _update_market_conditions from the
current entity and transaction state. -/
def mkMarketSnapshot {μ : Type} (s : EngineState μ) : MarketSnapshot :=
  { timestamp := s.current_time
    total_freelancers := s.freelancers.length
    total_clients := s.clients.length
    active_contracts :=
      (s.contracts.values.filter (fun c => c.status.value == "active")).length
    total_transaction_volume :=
      ((s.transactions.filter
        (fun t => dateOf t.transaction_date == dateOf s.current_time)).map
        (fun t => t.amount)).sum
    average_hourly_rate := calculateAverageHourlyRate s
    compliance_rate := calculateComplianceRate s }

/-- The market-dynamics invocation at the head of
_update_market_conditions: if a model is injected it is applied to the
entity dicts and current time and its in-place mutations take effect
(its return value, market_state in the source, is otherwise unused). -/
def applyMarketDynamics {μ σ ρ : Type} (models : Models μ σ ρ)
    (s : EngineState μ) : EngineState μ :=
  match models.market_dynamics_model with
  | some m =>
      let r := m s.freelancers s.clients s.contracts s.current_time
      { s with freelancers := r.1, clients := r.2.1, contracts := r.2.2 }
  | none => s

/-- _update_market_conditions (phase 1): run the market-dynamics model
if injected, then always append a snapshot of the resulting state. -/
def updateMarketConditions {μ σ ρ : Type} (models : Models μ σ ρ)
    (s : EngineState μ) : EngineState μ :=
  let s := applyMarketDynamics models s
  { s with market_snapshots := s.market_snapshots ++ [mkMarketSnapshot s] }

/-- The market_state argument handed to each behavior model in
_execute_agent_behaviors: the last snapshot if any exist, otherwise
none (market_snapshots[-1] if market_snapshots else None). -/
def marketStateArg (snaps : List MarketSnapshot) : Option MarketSnapshot :=
  if snaps.isEmpty then none else snaps.getLast?

/-- _execute_agent_behaviors (phase 2): if a freelancer model is
injected, invoke it once per freelancer with the freelancer, the latest
snapshot or none, the list of clients and the current time; then the
symmetric client loop. -/
def executeAgentBehaviors {μ σ ρ : Type} (models : Models μ σ ρ)
    (s : EngineState μ) : EngineState μ :=
  let s :=
    match models.freelancer_behavior_model with
    | some fm =>
        { s with freelancers := s.freelancers.map (fun kf =>
            (kf.1, fm kf.2 (marketStateArg s.market_snapshots)
              s.clients.values s.current_time)) }
    | none => s
  match models.client_behavior_model with
  | some cm =>
      { s with clients := s.clients.map (fun kc =>
          (kc.1, cm kc.2 (marketStateArg s.market_snapshots)
            s.freelancers.values s.current_time)) }
  | none => s

/-- The per-contract body of _process_contracts: a contract with an end
date strictly before the current date and the active status value moves
to COMPLETED; anything else is untouched. -/
def processOneContract (t : Time) (c : Contract) : Contract :=
  match c.end_date with
  | some d =>
      if dateOf t > d ∧ c.status.value == "active" then
        { c with status := ContractStatus.completed }
      else c
  | none => c

/-- _process_contracts (phase 3): apply the lifecycle rule to every
contract in the dict. -/
def processContracts {μ : Type} (s : EngineState μ) : EngineState μ :=
  { s with contracts := s.contracts.map (fun kc =>
      (kc.1, processOneContract s.current_time kc.2)) }

/-- The for loop of _apply_regulatory_scenarios, one scenario at a
time in registration order: an active scenario's apply replaces the
contents of the three entity dicts. -/
def applyScenariosList {μ ρ : Type} :
    List (Scenario ρ) → EngineState μ → EngineState μ
  | [], s => s
  | sc :: rest, s =>
      let s' :=
        if sc.is_active s.current_time then
          let r := sc.apply s.freelancers s.clients s.contracts s.current_time
          { s with freelancers := r.1, clients := r.2.1, contracts := r.2.2 }
        else s
      applyScenariosList rest s'

/-- _apply_regulatory_scenarios (phase 4). -/
def applyRegulatoryScenarios {μ σ ρ : Type} (models : Models μ σ ρ)
    (s : EngineState μ) : EngineState μ :=
  applyScenariosList models.scenarios s

/-- _collect_step_metrics (phase 5): hand the full entity/transaction
state and current time to the metrics collector. -/
def collectStepMetrics {μ σ ρ : Type} (models : Models μ σ ρ)
    (s : EngineState μ) : EngineState μ :=
  let mc := models.collect_step_metrics s.metrics_collector
    s.freelancers s.clients s.contracts s.transactions s.current_time
  { s with metrics_collector := mc }

/-- Phase 6: current_time += config.time_step. -/
def advanceTime {μ : Type} (cfg : SimulationConfig) (s : EngineState μ) :
    EngineState μ :=
  { s with current_time := s.current_time + cfg.time_step }

/-- step(): the six phases in their fixed order, innermost applied
first: update market conditions, execute agent behaviors, process
contracts, apply regulatory scenarios, collect metrics, advance time. -/
def step {μ σ ρ : Type} (cfg : SimulationConfig) (models : Models μ σ ρ)
    (s : EngineState μ) : EngineState μ :=
  advanceTime cfg
    (collectStepMetrics models
      (applyRegulatoryScenarios models
        (processContracts
          (executeAgentBehaviors models
            (updateMarketConditions models s)))))

/-- The compliance rates of the last 10 snapshots
(market_snapshots[-10:], then the compliance_rate field of each), as
examined by _check_convergence. -/
def recentRates {μ : Type} (s : EngineState μ) : List ℚ :=
  (s.market_snapshots.drop (s.market_snapshots.length - 10)).map
    (fun sn => sn.compliance_rate)

/-- _check_convergence: false with fewer than 10 snapshots, otherwise
compare the np.var of the compliance rates of the last 10 snapshots
against the configured threshold. -/
def checkConvergence {μ : Type} (cfg : SimulationConfig) (s : EngineState μ) :
    Bool :=
  if s.market_snapshots.length < 10 then false
  else decide (npVar (recentRates s) < cfg.convergence_threshold)

/-- The main simulation loop of run(), with an explicit structural fuel
that bounds the remaining loop turns: while the current time has not
passed the end date and the iteration cap is not reached, step,
increment the iteration counter, and break early on convergence.
Returns the final state and the iteration count. -/
def runLoopFuel {μ σ ρ : Type} (cfg : SimulationConfig) (models : Models μ σ ρ) :
    Nat → EngineState μ → Nat → EngineState μ × Nat
  | 0, s, iteration => (s, iteration)
  | fuel + 1, s, iteration =>
      if s.current_time ≤ cfg.end_date ∧ iteration < cfg.max_iterations then
        let s' := step cfg models s
        if checkConvergence cfg s' then (s', iteration + 1)
        else runLoopFuel cfg models fuel s' (iteration + 1)
      else (s, iteration)

/-- The while loop of run(), entered at the given iteration count.  The
fuel max_iterations - iteration is exact: the guard keeps iteration
strictly below max_iterations, so the fuel never runs out before the
guard fails (runLoopFuel_eq below makes this precise). -/
def runLoop {μ σ ρ : Type} (cfg : SimulationConfig) (models : Models μ σ ρ)
    (s : EngineState μ) (iteration : Nat) : EngineState μ × Nat :=
  runLoopFuel cfg models (cfg.max_iterations - iteration) s iteration

/-- The execution_summary block of _generate_results. -/
structure ExecutionSummary where
  start_time : Time
  end_time : Time
  total_steps : Nat
  final_freelancers : Nat
  final_clients : Nat
  final_contracts : Nat
  final_transactions : Nat
deriving DecidableEq, Repr

/-- The results dict of _generate_results: configuration echo, execution
summary, the ordered snapshot sequence, the metrics summary, each
scenario's results in order, and the final entity collections as value
lists. -/
structure SimulationResults (σ ρ : Type) where
  config : SimulationConfig
  execution_summary : ExecutionSummary
  market_evolution : List MarketSnapshot
  metrics : σ
  scenario_results : List ρ
  freelancers : List Freelancer
  clients : List Client
  contracts : List Contract
  transactions : List Transaction
deriving DecidableEq

/-- _generate_results on a final engine state. -/
def generateResults {μ σ ρ : Type} (cfg : SimulationConfig)
    (models : Models μ σ ρ) (s : EngineState μ) : SimulationResults σ ρ :=
  { config := cfg
    execution_summary :=
      { start_time := cfg.start_date
        end_time := s.current_time
        total_steps := s.market_snapshots.length
        final_freelancers := s.freelancers.length
        final_clients := s.clients.length
        final_contracts := s.contracts.length
        final_transactions := s.transactions.length }
    market_evolution := s.market_snapshots
    metrics := models.get_summary s.metrics_collector
    scenario_results := models.scenarios.map (fun sc => sc.get_results)
    freelancers := s.freelancers.values
    clients := s.clients.values
    contracts := s.contracts.values
    transactions := s.transactions }

/-- initialize_population(): a placeholder in the source (pass); the
engine performs no generation logic itself. -/
def initializePopulation {μ : Type} (s : EngineState μ) : EngineState μ := s

/-- run(): initialize the population once, run the main loop from a
fresh engine state, and generate the results aggregate. -/
def run {μ σ ρ : Type} (cfg : SimulationConfig) (models : Models μ σ ρ)
    (m0 : μ) : SimulationResults σ ρ :=
  let s0 := initializePopulation (initEngineState cfg m0)
  let (sFinal, _) := runLoop cfg models s0 0
  generateResults cfg models sFinal

/-! ### Structural lemmas about the phases -/

section PhaseLemmas

variable {μ σ ρ : Type} (cfg : SimulationConfig) (models : Models μ σ ρ)
variable (s : EngineState μ)

theorem applyMarketDynamics_current_time :
    (applyMarketDynamics models s).current_time = s.current_time := by
  unfold applyMarketDynamics
  cases models.market_dynamics_model <;> rfl

theorem applyMarketDynamics_transactions :
    (applyMarketDynamics models s).transactions = s.transactions := by
  unfold applyMarketDynamics
  cases models.market_dynamics_model <;> rfl

theorem applyMarketDynamics_market_snapshots :
    (applyMarketDynamics models s).market_snapshots = s.market_snapshots := by
  unfold applyMarketDynamics
  cases models.market_dynamics_model <;> rfl

theorem applyMarketDynamics_metrics :
    (applyMarketDynamics models s).metrics_collector = s.metrics_collector := by
  unfold applyMarketDynamics
  cases models.market_dynamics_model <;> rfl

theorem applyMarketDynamics_none (h : models.market_dynamics_model = none) :
    applyMarketDynamics models s = s := by
  unfold applyMarketDynamics
  rw [h]

theorem updateMarketConditions_market_snapshots :
    (updateMarketConditions models s).market_snapshots =
      s.market_snapshots ++ [mkMarketSnapshot (applyMarketDynamics models s)] := by
  simp only [updateMarketConditions]
  rw [applyMarketDynamics_market_snapshots]

theorem updateMarketConditions_current_time :
    (updateMarketConditions models s).current_time = s.current_time := by
  simp only [updateMarketConditions]
  exact applyMarketDynamics_current_time models s

theorem updateMarketConditions_transactions :
    (updateMarketConditions models s).transactions = s.transactions := by
  simp only [updateMarketConditions]
  exact applyMarketDynamics_transactions models s

theorem updateMarketConditions_contracts :
    (updateMarketConditions models s).contracts =
      (applyMarketDynamics models s).contracts := rfl

theorem updateMarketConditions_metrics :
    (updateMarketConditions models s).metrics_collector = s.metrics_collector := by
  simp only [updateMarketConditions]
  exact applyMarketDynamics_metrics models s

theorem executeAgentBehaviors_current_time :
    (executeAgentBehaviors models s).current_time = s.current_time := by
  unfold executeAgentBehaviors
  cases models.freelancer_behavior_model <;>
    cases models.client_behavior_model <;> rfl

theorem executeAgentBehaviors_market_snapshots :
    (executeAgentBehaviors models s).market_snapshots = s.market_snapshots := by
  unfold executeAgentBehaviors
  cases models.freelancer_behavior_model <;>
    cases models.client_behavior_model <;> rfl

theorem executeAgentBehaviors_transactions :
    (executeAgentBehaviors models s).transactions = s.transactions := by
  unfold executeAgentBehaviors
  cases models.freelancer_behavior_model <;>
    cases models.client_behavior_model <;> rfl

theorem executeAgentBehaviors_contracts :
    (executeAgentBehaviors models s).contracts = s.contracts := by
  unfold executeAgentBehaviors
  cases models.freelancer_behavior_model <;>
    cases models.client_behavior_model <;> rfl

theorem executeAgentBehaviors_metrics :
    (executeAgentBehaviors models s).metrics_collector = s.metrics_collector := by
  unfold executeAgentBehaviors
  cases models.freelancer_behavior_model <;>
    cases models.client_behavior_model <;> rfl

theorem executeAgentBehaviors_none
    (hf : models.freelancer_behavior_model = none)
    (hc : models.client_behavior_model = none) :
    executeAgentBehaviors models s = s := by
  unfold executeAgentBehaviors
  rw [hf, hc]

theorem processContracts_current_time :
    (processContracts s).current_time = s.current_time := rfl

theorem processContracts_market_snapshots :
    (processContracts s).market_snapshots = s.market_snapshots := rfl

theorem processContracts_transactions :
    (processContracts s).transactions = s.transactions := rfl

theorem processContracts_freelancers :
    (processContracts s).freelancers = s.freelancers := rfl

theorem processContracts_clients :
    (processContracts s).clients = s.clients := rfl

theorem processContracts_metrics :
    (processContracts s).metrics_collector = s.metrics_collector := rfl

theorem applyScenariosList_current_time (scens : List (Scenario ρ)) :
    ∀ s : EngineState μ,
      (applyScenariosList scens s).current_time = s.current_time := by
  induction scens with
  | nil => intro s; rfl
  | cons sc rest ih =>
      intro s
      unfold applyScenariosList
      by_cases h : sc.is_active s.current_time <;> simp only [h] <;>
        rw [ih] <;> rfl

theorem applyScenariosList_market_snapshots (scens : List (Scenario ρ)) :
    ∀ s : EngineState μ,
      (applyScenariosList scens s).market_snapshots = s.market_snapshots := by
  induction scens with
  | nil => intro s; rfl
  | cons sc rest ih =>
      intro s
      unfold applyScenariosList
      by_cases h : sc.is_active s.current_time <;> simp only [h] <;>
        rw [ih] <;> rfl

theorem applyScenariosList_transactions (scens : List (Scenario ρ)) :
    ∀ s : EngineState μ,
      (applyScenariosList scens s).transactions = s.transactions := by
  induction scens with
  | nil => intro s; rfl
  | cons sc rest ih =>
      intro s
      unfold applyScenariosList
      by_cases h : sc.is_active s.current_time <;> simp only [h] <;>
        rw [ih] <;> rfl

theorem applyScenariosList_metrics (scens : List (Scenario ρ)) :
    ∀ s : EngineState μ,
      (applyScenariosList scens s).metrics_collector = s.metrics_collector := by
  induction scens with
  | nil => intro s; rfl
  | cons sc rest ih =>
      intro s
      unfold applyScenariosList
      by_cases h : sc.is_active s.current_time <;> simp only [h] <;>
        rw [ih] <;> rfl

theorem collectStepMetrics_current_time :
    (collectStepMetrics models s).current_time = s.current_time := rfl

theorem collectStepMetrics_market_snapshots :
    (collectStepMetrics models s).market_snapshots = s.market_snapshots := rfl

theorem collectStepMetrics_contracts :
    (collectStepMetrics models s).contracts = s.contracts := rfl

theorem collectStepMetrics_transactions :
    (collectStepMetrics models s).transactions = s.transactions := rfl

theorem advanceTime_market_snapshots :
    (advanceTime cfg s).market_snapshots = s.market_snapshots := rfl

theorem advanceTime_contracts :
    (advanceTime cfg s).contracts = s.contracts := rfl

theorem step_current_time :
    (step cfg models s).current_time = s.current_time + cfg.time_step := by
  unfold step advanceTime
  rw [collectStepMetrics_current_time,
    applyRegulatoryScenarios, applyScenariosList_current_time,
    processContracts_current_time, executeAgentBehaviors_current_time,
    updateMarketConditions_current_time]

theorem step_market_snapshots :
    (step cfg models s).market_snapshots =
      s.market_snapshots ++ [mkMarketSnapshot (applyMarketDynamics models s)] := by
  unfold step
  rw [advanceTime_market_snapshots, collectStepMetrics_market_snapshots,
    applyRegulatoryScenarios, applyScenariosList_market_snapshots,
    processContracts_market_snapshots, executeAgentBehaviors_market_snapshots,
    updateMarketConditions_market_snapshots]

end PhaseLemmas

/-! ### List and aggregate helper lemmas -/

theorem lookup_map_value {α β : Type} (f : α → β) (k : String) :
    ∀ l : List (String × α),
      (l.map (fun ka => (ka.1, f ka.2))).lookup k = (l.lookup k).map f := by
  intro l
  induction l with
  | nil => rfl
  | cons ka rest ih =>
      by_cases h : k == ka.1 <;> simp [List.lookup, h, ih]

theorem volume_filter_sum_eq_ite_sum (t0 : Day) :
    ∀ l : List Transaction,
      ((l.filter (fun t => dateOf t.transaction_date == t0)).map
        (fun t => t.amount)).sum =
      (l.map (fun t =>
        if dateOf t.transaction_date = t0 then t.amount else 0)).sum := by
  intro l
  induction l with
  | nil => rfl
  | cons t rest ih =>
      by_cases h : dateOf t.transaction_date = t0 <;>
        simp [List.filter_cons, h, ih]

theorem complianceValue_eq (cs : ComplianceStatus) :
    (cs.value == "compliant") = decide (cs = ComplianceStatus.compliant) := by
  cases cs <;> rfl

theorem contractStatusValue_eq (st : ContractStatus) :
    (st.value == "active") = decide (st = ContractStatus.active) := by
  cases st <;> rfl

theorem marketStateArg_concat (l : List MarketSnapshot) (a : MarketSnapshot) :
    marketStateArg (l ++ [a]) = some a := by
  unfold marketStateArg
  simp

theorem npMean_replicate (n : Nat) (c : ℚ) (hn : n ≠ 0) :
    npMean (List.replicate n c) = c := by
  have hn' : (n : ℚ) ≠ 0 := by exact_mod_cast hn
  unfold npMean
  simp only [List.sum_replicate, List.length_replicate, nsmul_eq_mul]
  field_simp

theorem npVar_replicate (n : Nat) (c : ℚ) (hn : n ≠ 0) :
    npVar (List.replicate n c) = 0 := by
  unfold npVar
  rw [npMean_replicate n c hn]
  simp

/-- The lifecycle rule never touches a contract that is not ACTIVE. -/
theorem processOneContract_not_active (t : Time) (c : Contract)
    (h : c.status ≠ ContractStatus.active) :
    processOneContract t c = c := by
  rcases hd : c.end_date with _ | d
  · simp only [processOneContract, hd]
  · simp only [processOneContract, hd]
    rw [if_neg]
    intro hcontra
    rw [contractStatusValue_eq] at hcontra
    exact h (of_decide_eq_true hcontra.2)

/-- Exhaustive description of the per-contract lifecycle rule: either
the contract is unchanged, or it was ACTIVE with an elapsed end date and
exactly its status moved to COMPLETED. -/
theorem processOneContract_cases (t : Time) (c : Contract) :
    processOneContract t c = c ∨
      (c.status = ContractStatus.active ∧
        processOneContract t c = { c with status := ContractStatus.completed } ∧
        ∃ d, c.end_date = some d ∧ d < dateOf t) := by
  rcases hd : c.end_date with _ | d
  · exact Or.inl (by simp only [processOneContract, hd])
  · by_cases h : dateOf t > d ∧ c.status.value == "active"
    · refine Or.inr ⟨?_, ?_, d, rfl, h.1⟩
      · have hv := h.2
        rw [contractStatusValue_eq] at hv
        exact of_decide_eq_true hv
      · simp only [processOneContract, hd]
        rw [if_pos h]
    · refine Or.inl ?_
      simp only [processOneContract, hd]
      rw [if_neg h]

/-- With no injected behavioral models and no scenarios, one step only
appends the snapshot of the pre-step state, applies the lifecycle rule
to each contract, feeds the metrics collector and advances time. -/
theorem step_noModels {μ σ ρ : Type} (cfg : SimulationConfig)
    (models : Models μ σ ρ) (s : EngineState μ)
    (hf : models.freelancer_behavior_model = none)
    (hc : models.client_behavior_model = none)
    (hm : models.market_dynamics_model = none)
    (hs : models.scenarios = []) :
    step cfg models s =
      { current_time := s.current_time + cfg.time_step
        freelancers := s.freelancers
        clients := s.clients
        contracts := s.contracts.map (fun kc =>
          (kc.1, processOneContract s.current_time kc.2))
        transactions := s.transactions
        market_snapshots := s.market_snapshots ++ [mkMarketSnapshot s]
        metrics_collector := models.collect_step_metrics s.metrics_collector
          s.freelancers s.clients
          (s.contracts.map (fun kc =>
            (kc.1, processOneContract s.current_time kc.2)))
          s.transactions s.current_time } := by
  have h1 : updateMarketConditions models s =
      { s with market_snapshots := s.market_snapshots ++ [mkMarketSnapshot s] } := by
    unfold updateMarketConditions
    rw [applyMarketDynamics_none models s hm]
  unfold step
  rw [h1, executeAgentBehaviors_none models _ hf hc]
  unfold applyRegulatoryScenarios
  rw [hs]
  rfl

/-- The fuel in runLoop is irrelevant as soon as it dominates the
remaining iteration budget, so runLoop is exactly the while loop of
run(): the loop only ever stops because its guard fails or it converges,
never because the fuel runs out. -/
theorem runLoopFuel_eq {μ σ ρ : Type} (cfg : SimulationConfig)
    (models : Models μ σ ρ) :
    ∀ f₁ f₂ : Nat, ∀ s : EngineState μ, ∀ it : Nat,
      cfg.max_iterations - it ≤ f₁ → cfg.max_iterations - it ≤ f₂ →
      runLoopFuel cfg models f₁ s it = runLoopFuel cfg models f₂ s it := by
  intro f₁
  induction f₁ with
  | zero =>
      intro f₂ s it h₁ h₂
      cases f₂ with
      | zero => rfl
      | succ f₂ =>
          unfold runLoopFuel
          rw [if_neg]
          intro hcontra
          omega
  | succ f₁ ih =>
      intro f₂ s it h₁ h₂
      cases f₂ with
      | zero =>
          unfold runLoopFuel
          rw [if_neg]
          intro hcontra
          omega
      | succ f₂ =>
          unfold runLoopFuel
          by_cases hg : s.current_time ≤ cfg.end_date ∧ it < cfg.max_iterations
          · rw [if_pos hg, if_pos hg]
            by_cases hcv : checkConvergence cfg (step cfg models s)
            · simp only [hcv, if_true]
            · simp only [hcv, if_false]
              exact ih f₂ (step cfg models s) (it + 1) (by omega) (by omega)
          · rw [if_neg hg, if_neg hg]

/-! ### Exception propagation: the engine with fallible injected
strategies

Python raises propagate out of step() and run() uncaught.  The
exception-aware variant of each phase returns either the completed
phase's state or, on the first raising strategy call, the error paired
with the engine state exactly as the completed earlier mutations left it
(in-place mutation is not rolled back when an exception aborts the
step). -/

/-- A fallible scenario: its apply operation may raise. -/
structure ScenarioE (ε ρ : Type) where
  is_active : Time → Bool
  apply : EntityMap Freelancer → EntityMap Client → EntityMap Contract →
    Time → Except ε Maps
  get_results : ρ

/-- The engine's injected strategy slots with fallible callables. -/
structure ModelsE (ε μ σ ρ : Type) where
  freelancer_behavior_model :
    Option (Freelancer → Option MarketSnapshot → List Client → Time →
      Except ε Freelancer) := none
  client_behavior_model :
    Option (Client → Option MarketSnapshot → List Freelancer → Time →
      Except ε Client) := none
  market_dynamics_model :
    Option (EntityMap Freelancer → EntityMap Client → EntityMap Contract →
      Time → Except ε Maps) := none
  scenarios : List (ScenarioE ε ρ) := []
  collect_step_metrics :
    μ → EntityMap Freelancer → EntityMap Client → EntityMap Contract →
    List Transaction → Time → Except ε μ
  get_summary : μ → σ

/-- One per-agent behavior loop over an entity dict: each entity is
replaced by the strategy's result in turn; when a call raises, the
entities already visited keep their mutated values and the remaining
ones are untouched. -/
def behaviorLoop {ε α : Type} (g : α → Except ε α) :
    List (String × α) → Except (ε × List (String × α)) (List (String × α))
  | [] => .ok []
  | ka :: rest =>
      match g ka.2 with
      | .error e => .error (e, ka :: rest)
      | .ok a' =>
          match behaviorLoop g rest with
          | .error er => .error (er.1, (ka.1, a') :: er.2)
          | .ok rest' => .ok ((ka.1, a') :: rest')

/-- Fallible phase 1. -/
def updateMarketConditionsE {ε μ σ ρ : Type} (models : ModelsE ε μ σ ρ)
    (s : EngineState μ) : Except (ε × EngineState μ) (EngineState μ) :=
  match models.market_dynamics_model with
  | some m =>
      match m s.freelancers s.clients s.contracts s.current_time with
      | .error e => .error (e, s)
      | .ok r =>
          let s' := { s with freelancers := r.1, clients := r.2.1, contracts := r.2.2 }
          let snaps := s'.market_snapshots ++ [mkMarketSnapshot s']
          .ok { s' with market_snapshots := snaps }
  | none =>
      let snaps := s.market_snapshots ++ [mkMarketSnapshot s]
      .ok { s with market_snapshots := snaps }

/-- Fallible phase 2: the freelancer loop, then the client loop. -/
def executeAgentBehaviorsE {ε μ σ ρ : Type} (models : ModelsE ε μ σ ρ)
    (s : EngineState μ) : Except (ε × EngineState μ) (EngineState μ) :=
  let afterF : Except (ε × EngineState μ) (EngineState μ) :=
    match models.freelancer_behavior_model with
    | some fm =>
        match behaviorLoop (fun f => fm f (marketStateArg s.market_snapshots)
            s.clients.values s.current_time) s.freelancers with
        | .error er => .error (er.1, { s with freelancers := er.2 })
        | .ok fs' => .ok { s with freelancers := fs' }
    | none => .ok s
  match afterF with
  | .error er => .error er
  | .ok s₁ =>
      match models.client_behavior_model with
      | some cm =>
          match behaviorLoop (fun c => cm c (marketStateArg s₁.market_snapshots)
              s₁.freelancers.values s₁.current_time) s₁.clients with
          | .error er => .error (er.1, { s₁ with clients := er.2 })
          | .ok cs' => .ok { s₁ with clients := cs' }
      | none => .ok s₁

/-- Fallible phase 4, one scenario at a time in registration order. -/
def applyScenariosListE {ε μ ρ : Type} :
    List (ScenarioE ε ρ) → EngineState μ →
    Except (ε × EngineState μ) (EngineState μ)
  | [], s => .ok s
  | sc :: rest, s =>
      if sc.is_active s.current_time then
        match sc.apply s.freelancers s.clients s.contracts s.current_time with
        | .error e => .error (e, s)
        | .ok r =>
            applyScenariosListE rest
              { s with freelancers := r.1, clients := r.2.1, contracts := r.2.2 }
      else applyScenariosListE rest s

/-- Fallible phase 5. -/
def collectStepMetricsE {ε μ σ ρ : Type} (models : ModelsE ε μ σ ρ)
    (s : EngineState μ) : Except (ε × EngineState μ) (EngineState μ) :=
  match models.collect_step_metrics s.metrics_collector s.freelancers
      s.clients s.contracts s.transactions s.current_time with
  | .error e => .error (e, s)
  | .ok mc => .ok { s with metrics_collector := mc }

/-- step() over fallible strategies: the same six phases; the first
raising call aborts the step, leaving the state mutations of the
completed phases in place (no rollback) and running no later phase. -/
def stepE {ε μ σ ρ : Type} (cfg : SimulationConfig) (models : ModelsE ε μ σ ρ)
    (s : EngineState μ) : Except (ε × EngineState μ) (EngineState μ) :=
  match updateMarketConditionsE models s with
  | .error er => .error er
  | .ok s₁ =>
      match executeAgentBehaviorsE models s₁ with
      | .error er => .error er
      | .ok s₂ =>
          let s₃ := processContracts s₂
          match applyScenariosListE models.scenarios s₃ with
          | .error er => .error er
          | .ok s₄ =>
              match collectStepMetricsE models s₄ with
              | .error er => .error er
              | .ok s₅ => .ok (advanceTime cfg s₅)

/-- The while loop of run() over fallible strategies: a raising step
aborts the whole run. -/
def runLoopFuelE {ε μ σ ρ : Type} (cfg : SimulationConfig)
    (models : ModelsE ε μ σ ρ) :
    Nat → EngineState μ → Nat →
    Except (ε × EngineState μ) (EngineState μ × Nat)
  | 0, s, iteration => .ok (s, iteration)
  | fuel + 1, s, iteration =>
      if s.current_time ≤ cfg.end_date ∧ iteration < cfg.max_iterations then
        match stepE cfg models s with
        | .error er => .error er
        | .ok s' =>
            if checkConvergence cfg s' then .ok (s', iteration + 1)
            else runLoopFuelE cfg models fuel s' (iteration + 1)
      else .ok (s, iteration)

/-- The fallible while loop entered at a given iteration count. -/
def runLoopE {ε μ σ ρ : Type} (cfg : SimulationConfig)
    (models : ModelsE ε μ σ ρ) (s : EngineState μ) (iteration : Nat) :
    Except (ε × EngineState μ) (EngineState μ × Nat) :=
  runLoopFuelE cfg models (cfg.max_iterations - iteration) s iteration

/-- A never-raising scenario viewed as a fallible one. -/
def liftScenario {ε ρ : Type} (sc : Scenario ρ) : ScenarioE ε ρ :=
  { is_active := sc.is_active
    apply := fun fs cs ks t => .ok (sc.apply fs cs ks t)
    get_results := sc.get_results }

/-- Never-raising strategies viewed as fallible ones. -/
def liftModels {ε μ σ ρ : Type} (models : Models μ σ ρ) : ModelsE ε μ σ ρ :=
  { freelancer_behavior_model := models.freelancer_behavior_model.map
      (fun fm f ms cl t => .ok (fm f ms cl t))
    client_behavior_model := models.client_behavior_model.map
      (fun cm c ms fl t => .ok (cm c ms fl t))
    market_dynamics_model := models.market_dynamics_model.map
      (fun m fs cs ks t => .ok (m fs cs ks t))
    scenarios := models.scenarios.map liftScenario
    collect_step_metrics := fun mc fs cs ks ts t =>
      .ok (models.collect_step_metrics mc fs cs ks ts t)
    get_summary := models.get_summary }

theorem behaviorLoop_ok {ε α : Type} (g : α → α) :
    ∀ l : List (String × α),
      behaviorLoop (ε := ε) (fun a => .ok (g a)) l =
        .ok (l.map (fun ka => (ka.1, g ka.2))) := by
  intro l
  induction l with
  | nil => rfl
  | cons ka rest ih =>
      unfold behaviorLoop
      rw [ih]
      rfl

theorem applyScenariosListE_lift {ε μ ρ : Type} :
    ∀ (scens : List (Scenario ρ)) (s : EngineState μ),
      applyScenariosListE (ε := ε) (scens.map liftScenario) s =
        .ok (applyScenariosList scens s) := by
  intro scens
  induction scens with
  | nil => intro s; rfl
  | cons sc rest ih =>
      intro s
      by_cases h : sc.is_active s.current_time
      · simp only [List.map_cons, applyScenariosListE, applyScenariosList,
          liftScenario, h, if_true, ih]
      · simp only [List.map_cons, applyScenariosListE, applyScenariosList,
          liftScenario, h, Bool.false_eq_true, if_false, ih]

theorem updateMarketConditionsE_lift {ε μ σ ρ : Type} (models : Models μ σ ρ)
    (s : EngineState μ) :
    updateMarketConditionsE (ε := ε) (liftModels models) s =
      .ok (updateMarketConditions models s) := by
  unfold updateMarketConditionsE updateMarketConditions applyMarketDynamics
    liftModels
  cases models.market_dynamics_model <;> rfl

theorem executeAgentBehaviorsE_lift {ε μ σ ρ : Type} (models : Models μ σ ρ)
    (s : EngineState μ) :
    executeAgentBehaviorsE (ε := ε) (liftModels models) s =
      .ok (executeAgentBehaviors models s) := by
  unfold executeAgentBehaviorsE executeAgentBehaviors liftModels
  cases models.freelancer_behavior_model with
  | none =>
      cases models.client_behavior_model with
      | none => rfl
      | some cm =>
          simp only [Option.map, behaviorLoop_ok]
  | some fm =>
      cases models.client_behavior_model with
      | none =>
          simp only [Option.map, behaviorLoop_ok]
      | some cm =>
          simp only [Option.map, behaviorLoop_ok]

/-- Strategies that never raise make the fallible step agree with the
plain step: the error plumbing adds nothing when nothing raises. -/
theorem applyScenariosListE_liftModels {ε μ σ ρ : Type}
    (models : Models μ σ ρ) (s : EngineState μ) :
    applyScenariosListE (ε := ε) (liftModels models).scenarios s =
      .ok (applyRegulatoryScenarios models s) := by
  show applyScenariosListE (models.scenarios.map liftScenario) s = _
  rw [applyScenariosListE_lift]
  rfl

/-- Strategies that never raise make the fallible step agree with the
plain step: the error plumbing adds nothing when nothing raises. -/
theorem collectStepMetricsE_lift {ε μ σ ρ : Type}
    (models : Models μ σ ρ) (s : EngineState μ) :
    collectStepMetricsE (ε := ε) (liftModels models) s =
      .ok (collectStepMetrics models s) := rfl

/-- Strategies that never raise make the fallible step agree with the
plain step: the error plumbing adds nothing when nothing raises. -/
theorem stepE_lift {ε μ σ ρ : Type} (cfg : SimulationConfig)
    (models : Models μ σ ρ) (s : EngineState μ) :
    stepE (ε := ε) cfg (liftModels models) s = .ok (step cfg models s) := by
  unfold stepE step
  simp only [updateMarketConditionsE_lift, executeAgentBehaviorsE_lift,
    applyScenariosListE_liftModels, collectStepMetricsE_lift]

/-! ### Lifecycle persistence helpers -/

theorem step_contracts_noModels {μ σ ρ : Type} (cfg : SimulationConfig)
    (models : Models μ σ ρ) (s : EngineState μ)
    (hf : models.freelancer_behavior_model = none)
    (hc : models.client_behavior_model = none)
    (hm : models.market_dynamics_model = none)
    (hs : models.scenarios = []) :
    (step cfg models s).contracts = s.contracts.map (fun kc =>
      (kc.1, processOneContract s.current_time kc.2)) := by
  rw [step_noModels cfg models s hf hc hm hs]

theorem processOneContract_completed (t : Time) (c : Contract)
    (h : c.status = ContractStatus.completed) :
    processOneContract t c = c := by
  apply processOneContract_not_active
  rw [h]
  intro hcontra
  cases hcontra

/-- In an engine running with no injected strategies, a COMPLETED
contract stays present and COMPLETED under any number of steps. -/
theorem completed_persists {μ σ ρ : Type} (cfg : SimulationConfig)
    (models : Models μ σ ρ)
    (hf : models.freelancer_behavior_model = none)
    (hc : models.client_behavior_model = none)
    (hm : models.market_dynamics_model = none)
    (hs : models.scenarios = []) :
    ∀ (n : Nat) (s : EngineState μ) (k : String) (c : Contract),
      s.contracts.lookup k = some c → c.status = ContractStatus.completed →
      ∃ c', ((step cfg models)^[n] s).contracts.lookup k = some c' ∧
        c'.status = ContractStatus.completed := by
  intro n
  induction n with
  | zero =>
      intro s k c hl hcs
      exact ⟨c, hl, hcs⟩
  | succ n ih =>
      intro s k c hl hcs
      rw [Function.iterate_succ_apply]
      have hstep : (step cfg models s).contracts.lookup k =
          some (processOneContract s.current_time c) := by
        rw [step_contracts_noModels cfg models s hf hc hm hs,
          lookup_map_value, hl]
        rfl
      rw [processOneContract_completed _ _ hcs] at hstep
      exact ih (step cfg models s) k c hstep hcs

/-! ### Failing injected strategies -/

/-- The strategies of a run whose metrics collector raises the error e
on every call, all other strategies being the never-raising ones. -/
def failingCollectorModels {ε μ σ ρ : Type} (models : Models μ σ ρ) (e : ε) :
    ModelsE ε μ σ ρ :=
  { liftModels models with collect_step_metrics := fun _ _ _ _ _ _ => .error e }

/-- An always-active scenario whose apply operation raises e. -/
def failingScenario {ε ρ : Type} (e : ε) (res : ρ) : ScenarioE ε ρ :=
  { is_active := fun _ => true
    apply := fun _ _ _ _ => .error e
    get_results := res }

/-- The strategies of a run whose first registered scenario raises e,
all other strategies being never-raising ones. -/
def failingScenarioModels {ε μ σ ρ : Type} (models : Models μ σ ρ) (e : ε)
    (res : ρ) (rest : List (ScenarioE ε ρ)) : ModelsE ε μ σ ρ :=
  { liftModels models with scenarios := failingScenario e res :: rest }

theorem updateMarketConditionsE_failingCollector {ε μ σ ρ : Type}
    (models : Models μ σ ρ) (e : ε) (s : EngineState μ) :
    updateMarketConditionsE (failingCollectorModels models e) s =
      .ok (updateMarketConditions models s) := by
  unfold updateMarketConditionsE updateMarketConditions applyMarketDynamics
    failingCollectorModels liftModels
  cases models.market_dynamics_model <;> rfl

theorem executeAgentBehaviorsE_failingCollector {ε μ σ ρ : Type}
    (models : Models μ σ ρ) (e : ε) (s : EngineState μ) :
    executeAgentBehaviorsE (failingCollectorModels models e) s =
      .ok (executeAgentBehaviors models s) := by
  unfold executeAgentBehaviorsE executeAgentBehaviors failingCollectorModels
    liftModels
  cases models.freelancer_behavior_model with
  | none =>
      cases models.client_behavior_model with
      | none => rfl
      | some cm => simp only [Option.map, behaviorLoop_ok]
  | some fm =>
      cases models.client_behavior_model with
      | none => simp only [Option.map, behaviorLoop_ok]
      | some cm => simp only [Option.map, behaviorLoop_ok]

/-- A raising metrics collector aborts the step after phases 1 to 4
have fully mutated the state, with no rollback and no time advance. -/
theorem stepE_failingCollector {ε μ σ ρ : Type} (cfg : SimulationConfig)
    (models : Models μ σ ρ) (e : ε) (s : EngineState μ) :
    stepE cfg (failingCollectorModels models e) s =
      .error (e, applyRegulatoryScenarios models (processContracts
        (executeAgentBehaviors models (updateMarketConditions models s)))) := by
  unfold stepE
  rw [updateMarketConditionsE_failingCollector]
  simp only
  rw [executeAgentBehaviorsE_failingCollector]
  simp only
  have hsc : applyScenariosListE (failingCollectorModels models e).scenarios
      (processContracts (executeAgentBehaviors models
        (updateMarketConditions models s))) =
      .ok (applyRegulatoryScenarios models (processContracts
        (executeAgentBehaviors models (updateMarketConditions models s)))) := by
    show applyScenariosListE (models.scenarios.map liftScenario) _ = _
    rw [applyScenariosListE_lift]
    rfl
  rw [hsc]
  rfl

/-- A raising first scenario aborts the step right after phase 3, with
the remaining scenarios never invoked. -/
theorem stepE_failingScenario {ε μ σ ρ : Type} (cfg : SimulationConfig)
    (models : Models μ σ ρ) (e : ε) (res : ρ) (rest : List (ScenarioE ε ρ))
    (s : EngineState μ) :
    stepE cfg (failingScenarioModels models e res rest) s =
      .error (e, processContracts (executeAgentBehaviors models
        (updateMarketConditions models s))) := by
  unfold stepE
  have h1 : updateMarketConditionsE (failingScenarioModels models e res rest) s =
      .ok (updateMarketConditions models s) := by
    unfold updateMarketConditionsE updateMarketConditions applyMarketDynamics
      failingScenarioModels liftModels
    cases models.market_dynamics_model <;> rfl
  rw [h1]
  simp only
  have h2 : executeAgentBehaviorsE (failingScenarioModels models e res rest)
      (updateMarketConditions models s) =
      .ok (executeAgentBehaviors models (updateMarketConditions models s)) := by
    unfold executeAgentBehaviorsE executeAgentBehaviors failingScenarioModels
      liftModels
    cases models.freelancer_behavior_model with
    | none =>
        cases models.client_behavior_model with
        | none => rfl
        | some cm => simp only [Option.map, behaviorLoop_ok]
    | some fm =>
        cases models.client_behavior_model with
        | none => simp only [Option.map, behaviorLoop_ok]
        | some cm => simp only [Option.map, behaviorLoop_ok]
  rw [h2]
  rfl

/-- The strategies of a run whose market-dynamics model raises e on
every call, all other strategies being never-raising ones. -/
def failingMarketModels {ε μ σ ρ : Type} (models : Models μ σ ρ) (e : ε) :
    ModelsE ε μ σ ρ :=
  { liftModels models with market_dynamics_model := some (fun _ _ _ _ => .error e) }

/-- The strategies of a run whose freelancer behavioral model raises e
on every call, all other strategies being never-raising ones. -/
def failingFreelancerModels {ε μ σ ρ : Type} (models : Models μ σ ρ) (e : ε) :
    ModelsE ε μ σ ρ :=
  { liftModels models with freelancer_behavior_model := some (fun _ _ _ _ => .error e) }

/-- The strategies of a run whose client behavioral model raises e on
every call, all other strategies being never-raising ones. -/
def failingClientModels {ε μ σ ρ : Type} (models : Models μ σ ρ) (e : ε) :
    ModelsE ε μ σ ρ :=
  { liftModels models with client_behavior_model := some (fun _ _ _ _ => .error e) }

/-- A behavior strategy that raises on every call aborts the per-agent
loop at its first entity, every entity still untouched. -/
theorem behaviorLoop_error_head {ε α : Type} (e : ε) :
    ∀ l : List (String × α), l ≠ [] →
      behaviorLoop (fun _ => .error e) l = .error (e, l) := by
  intro l hne
  cases l with
  | nil => exact absurd rfl hne
  | cons ka rest => rfl

/-- A raising market-dynamics model aborts the step inside phase 1:
the error propagates with the engine state completely untouched (no
snapshot is appended, since the raise precedes the append). -/
theorem stepE_failingMarket {ε μ σ ρ : Type} (cfg : SimulationConfig)
    (models : Models μ σ ρ) (e : ε) (s : EngineState μ) :
    stepE cfg (failingMarketModels models e) s = .error (e, s) := rfl

theorem updateMarketConditionsE_failingFreelancer {ε μ σ ρ : Type}
    (models : Models μ σ ρ) (e : ε) (s : EngineState μ) :
    updateMarketConditionsE (failingFreelancerModels models e) s =
      .ok (updateMarketConditions models s) := by
  unfold updateMarketConditionsE updateMarketConditions applyMarketDynamics
    failingFreelancerModels liftModels
  cases models.market_dynamics_model <;> rfl

theorem executeAgentBehaviorsE_failingFreelancer {ε μ σ ρ : Type}
    (models : Models μ σ ρ) (e : ε) (s : EngineState μ)
    (hne : s.freelancers ≠ []) :
    executeAgentBehaviorsE (failingFreelancerModels models e) s =
      .error (e, s) := by
  unfold executeAgentBehaviorsE failingFreelancerModels liftModels
  simp only
  rw [behaviorLoop_error_head e s.freelancers hne]

/-- A raising freelancer behavioral model aborts the step in phase 2:
the phase-1 snapshot append of that same step is retained, the loop
never gets past its first freelancer, and no later phase runs. -/
theorem stepE_failingFreelancer {ε μ σ ρ : Type} (cfg : SimulationConfig)
    (models : Models μ σ ρ) (e : ε) (s : EngineState μ)
    (hne : (updateMarketConditions models s).freelancers ≠ []) :
    stepE cfg (failingFreelancerModels models e) s =
      .error (e, updateMarketConditions models s) := by
  unfold stepE
  rw [updateMarketConditionsE_failingFreelancer]
  simp only
  rw [executeAgentBehaviorsE_failingFreelancer models e
    (updateMarketConditions models s) hne]

theorem updateMarketConditionsE_failingClient {ε μ σ ρ : Type}
    (models : Models μ σ ρ) (e : ε) (s : EngineState μ) :
    updateMarketConditionsE (failingClientModels models e) s =
      .ok (updateMarketConditions models s) := by
  unfold updateMarketConditionsE updateMarketConditions applyMarketDynamics
    failingClientModels liftModels
  cases models.market_dynamics_model <;> rfl

theorem executeAgentBehaviorsE_failingClient {ε μ σ ρ : Type}
    (models : Models μ σ ρ) (e : ε) (s : EngineState μ)
    (hne : s.clients ≠ []) :
    executeAgentBehaviorsE (failingClientModels models e) s =
      .error (e, executeAgentBehaviors
        { models with client_behavior_model := none } s) := by
  unfold executeAgentBehaviorsE executeAgentBehaviors failingClientModels
    liftModels
  cases models.freelancer_behavior_model with
  | none =>
      simp only [Option.map]
      rw [behaviorLoop_error_head e s.clients hne]
  | some fm =>
      simp only [Option.map, behaviorLoop_ok]
      rw [behaviorLoop_error_head e s.clients hne]

/-- A raising client behavioral model aborts the step in the second
half of phase 2: the phase-1 snapshot append and the completed
freelancer loop of that same step are retained, the client loop never
gets past its first client, and no later phase runs. -/
theorem stepE_failingClient {ε μ σ ρ : Type} (cfg : SimulationConfig)
    (models : Models μ σ ρ) (e : ε) (s : EngineState μ)
    (hne : (updateMarketConditions models s).clients ≠ []) :
    stepE cfg (failingClientModels models e) s =
      .error (e, executeAgentBehaviors
        { models with client_behavior_model := none }
        (updateMarketConditions models s)) := by
  unfold stepE
  rw [updateMarketConditionsE_failingClient]
  simp only
  rw [executeAgentBehaviorsE_failingClient models e
    (updateMarketConditions models s) hne]

/-- Any step whose fallible strategies raise propagates its error and
partial state out of the while loop of run(): run() does not catch it
either. -/
theorem runLoopE_first_step_error {ε μ σ ρ : Type} (cfg : SimulationConfig)
    (modelsE : ModelsE ε μ σ ρ) (s : EngineState μ)
    (er : ε × EngineState μ) (hstep : stepE cfg modelsE s = .error er)
    (ht : s.current_time ≤ cfg.end_date) (hmax : 0 < cfg.max_iterations) :
    runLoopE cfg modelsE s 0 = .error er := by
  unfold runLoopE
  rw [Nat.sub_zero]
  obtain ⟨k, hk⟩ : ∃ k, cfg.max_iterations = k + 1 :=
    ⟨cfg.max_iterations - 1, by omega⟩
  conv_lhs => rw [hk]
  unfold runLoopFuelE
  rw [if_pos ⟨ht, hmax⟩, hstep]

/-! ### Concrete fixtures -/

/-- A metrics collector that accumulates nothing: the simplest
deterministic collector. -/
def trivModels : Models Unit Unit Unit :=
  { collect_step_metrics := fun u _ _ _ _ _ => u
    get_summary := fun u => u }

/-- The configuration of the documented ten-day run: start 2024-01-01,
end 2024-01-10, one-day steps, cap 1000; threshold 0 makes the
convergence predicate unsatisfiable (a variance is never below 0). -/
def cfgTenDays : SimulationConfig :=
  { start_date := mkTime 2024 1 1
    end_date := mkTime 2024 1 10
    max_iterations := 1000
    convergence_threshold := 0 }

/-- A year-long configuration with the default convergence threshold:
with no entities the compliance rate is constantly 0, so the run
converges as soon as 10 snapshots exist. -/
def cfgYear : SimulationConfig :=
  { start_date := mkTime 2024 1 1
    end_date := mkTime 2024 12 31
    max_iterations := 1000 }

def sampleFreelancer : Freelancer :=
  { id := "f1"
    name := "Alice"
    freelancer_type := FreelancerType.consultant
    skills := ["ops"]
    experience_years := 3
    hourly_rate := 60
    location := "CA"
    created_at := mkTime 2024 1 1 }

def sampleClient : Client :=
  { id := "c1"
    name := "Acme"
    client_type := ClientType.startup
    industry := "tech"
    size := "10-49"
    location := "CA"
    created_at := mkTime 2024 1 1 }

/-- An ACTIVE contract ending 2024-01-05, already marked compliant. -/
def sampleContract : Contract :=
  { id := "k1"
    freelancer_id := "f1"
    client_id := "c1"
    title := "T"
    description := "D"
    status := ContractStatus.active
    created_at := mkTime 2024 1 1
    end_date := some (mkDay 2024 1 5)
    sb988_compliant := ComplianceStatus.compliant }

/-- An engine state on 2024-01-06 holding the sample entities. -/
def sampleState : EngineState Unit :=
  { current_time := mkTime 2024 1 6
    freelancers := [("f1", sampleFreelancer)]
    clients := [("c1", sampleClient)]
    contracts := [("k1", sampleContract)]
    metrics_collector := () }

/-- The sample state with its contract already COMPLETED. -/
def sampleCompletedState : EngineState Unit :=
  { sampleState with contracts :=
      [("k1", { sampleContract with status := ContractStatus.completed })] }

/-- A snapshot whose only non-trivial content is its compliance rate. -/
def mkRateSnapshot (r : ℚ) : MarketSnapshot :=
  { timestamp := 0
    total_freelancers := 0
    total_clients := 0
    active_contracts := 0
    total_transaction_volume := 0
    average_hourly_rate := 0
    compliance_rate := r }

/-- The compliance-rate series alternating 0, 1 starting at 0. -/
def altRates01 : List ℚ := [0, 1, 0, 1, 0, 1, 0, 1, 0, 1]

/-- The compliance-rate series alternating 1, 0 starting at 1. -/
def altRates10 : List ℚ := [1, 0, 1, 0, 1, 0, 1, 0, 1, 0]

/-- A state holding 10 snapshots with the constant compliance rate
one half. -/
def constRateState : EngineState Unit :=
  { current_time := 0
    market_snapshots := List.replicate 10 (mkRateSnapshot (1/2))
    metrics_collector := () }

/-- A state holding 10 snapshots with alternating compliance rates. -/
def altRateState : EngineState Unit :=
  { current_time := 0
    market_snapshots := altRates01.map mkRateSnapshot
    metrics_collector := () }

/-! ### Claims -/

/-- C1: every call to step() executes exactly the six phases in the
fixed order -- update market conditions with its snapshot append,
execute the injected behavior strategies, process the contract
lifecycle, apply the registered scenarios in registration order,
collect metrics, advance time -- with no phase skipped or reordered:
step is precisely that composition, each step appends exactly the one
snapshot built in phase 1, and each step advances the current time by
exactly the configured time step. -/
theorem step_executes_six_phases_in_order {μ σ ρ : Type}
    (cfg : SimulationConfig) (models : Models μ σ ρ) (s : EngineState μ) :
    step cfg models s =
      advanceTime cfg
        (collectStepMetrics models
          (applyRegulatoryScenarios models
            (processContracts
              (executeAgentBehaviors models
                (updateMarketConditions models s)))))
    ∧ (step cfg models s).market_snapshots =
        s.market_snapshots ++ [mkMarketSnapshot (applyMarketDynamics models s)]
    ∧ (step cfg models s).current_time = s.current_time + cfg.time_step :=
  ⟨rfl, step_market_snapshots cfg models s, step_current_time cfg models s⟩

/-- C2: with start 2024-01-01, end 2024-01-10, one-day steps, an
iteration cap of 1000 and an unsatisfiable convergence threshold, the
while loop of run() performs exactly 10 steps (the guard admits every
start-of-day from January 1 to January 10 inclusive and checks before
stepping) and leaves the current time at 2024-01-11; the results of
run() report those 10 steps and that end time.  With the same dates but
a year-long horizon and the default threshold, the loop instead stops
early through the convergence predicate, again after exactly 10
iterations rather than the 366 the guard alone would allow. -/
theorem run_ten_step_schedule :
    (runLoop cfgTenDays trivModels (initEngineState cfgTenDays ()) 0).2 = 10
    ∧ (runLoop cfgTenDays trivModels
        (initEngineState cfgTenDays ()) 0).1.current_time = mkTime 2024 1 11
    ∧ (run cfgTenDays trivModels ()).execution_summary.total_steps = 10
    ∧ (run cfgTenDays trivModels ()).execution_summary.end_time =
        mkTime 2024 1 11
    ∧ (runLoop cfgYear trivModels (initEngineState cfgYear ()) 0).2 = 10 := by
  with_unfolding_all decide

/-- C3: the convergence predicate is false whenever fewer than 10
snapshots exist; with at least 10 it holds exactly when the np.var of
the compliance rates of the 10 most recent snapshots is strictly below
the configured threshold; 10 identical rates converge under every
positive threshold, and rates alternating between 0 and 1 (variance one
quarter) fail to converge under every threshold below one quarter. -/
theorem convergence_predicate_spec {μ : Type} (cfg : SimulationConfig)
    (s : EngineState μ) :
    (s.market_snapshots.length < 10 → checkConvergence cfg s = false)
    ∧ (10 ≤ s.market_snapshots.length →
        (checkConvergence cfg s = true ↔
          npVar (recentRates s) < cfg.convergence_threshold))
    ∧ (∀ c : ℚ, 10 ≤ s.market_snapshots.length →
        recentRates s = List.replicate 10 c →
        0 < cfg.convergence_threshold → checkConvergence cfg s = true)
    ∧ (10 ≤ s.market_snapshots.length →
        (recentRates s = altRates01 ∨ recentRates s = altRates10) →
        cfg.convergence_threshold < 1/4 → checkConvergence cfg s = false) := by
  refine ⟨?_, ?_, ?_, ?_⟩
  · intro hlt
    unfold checkConvergence
    rw [if_pos hlt]
  · intro h10
    unfold checkConvergence
    rw [if_neg (by omega)]
    exact ⟨of_decide_eq_true, decide_eq_true⟩
  · intro c h10 hrep hthr
    unfold checkConvergence
    rw [if_neg (by omega), hrep, npVar_replicate 10 c (by norm_num)]
    exact decide_eq_true hthr
  · intro h10 halt hthr
    have hv1 : npVar altRates01 = 1/4 := by with_unfolding_all decide
    have hv2 : npVar altRates10 = 1/4 := by with_unfolding_all decide
    unfold checkConvergence
    rw [if_neg (by omega)]
    rcases halt with h | h
    · rw [h, hv1]
      exact decide_eq_false (lt_asymm hthr)
    · rw [h, hv2]
      exact decide_eq_false (lt_asymm hthr)

/-- Witness for C3: a 10-snapshot state with constant compliance rate
one half converges under the default threshold, and a 10-snapshot state
with rates alternating 0, 1 does not converge under a threshold of one
fifth. -/
theorem convergence_predicate_spec_witness :
    checkConvergence { start_date := 0, end_date := 0 } constRateState = true
    ∧ checkConvergence
        { start_date := 0, end_date := 0, convergence_threshold := 1/5 }
        altRateState = false := by
  constructor
  · exact (convergence_predicate_spec
      { start_date := 0, end_date := 0 } constRateState).2.2.1 (1/2)
      (by with_unfolding_all decide)
      (by with_unfolding_all decide)
      (by with_unfolding_all decide)
  · exact (convergence_predicate_spec
      { start_date := 0, end_date := 0, convergence_threshold := 1/5 }
      altRateState).2.2.2
      (by with_unfolding_all decide)
      (Or.inl (by with_unfolding_all decide))
      (by with_unfolding_all decide)

/-- C4: in phase 3 of step(), every ACTIVE contract with an end date
strictly before the current date moves to COMPLETED; the lifecycle
phase performs no other transition (a contract is either untouched or
undergoes exactly that one transition), the whole step applies exactly
the lifecycle rule to the contract dict when no strategies are
injected, and a COMPLETED contract stays COMPLETED over any number of
further steps of a run with no scenarios and no behavioral models. -/
theorem contract_lifecycle_spec {μ σ ρ : Type} (cfg : SimulationConfig)
    (models : Models μ σ ρ) (s : EngineState μ)
    (hf : models.freelancer_behavior_model = none)
    (hc : models.client_behavior_model = none)
    (hm : models.market_dynamics_model = none)
    (hs : models.scenarios = []) :
    (step cfg models s).contracts = s.contracts.map (fun kc =>
      (kc.1, processOneContract s.current_time kc.2))
    ∧ (∀ (c : Contract) (d : Day), c.end_date = some d →
        d < dateOf s.current_time → c.status = ContractStatus.active →
        processOneContract s.current_time c =
          { c with status := ContractStatus.completed })
    ∧ (∀ c : Contract, processOneContract s.current_time c = c ∨
        (c.status = ContractStatus.active ∧
          processOneContract s.current_time c =
            { c with status := ContractStatus.completed } ∧
          ∃ d, c.end_date = some d ∧ d < dateOf s.current_time))
    ∧ (∀ (n : Nat) (k : String) (c : Contract),
        s.contracts.lookup k = some c → c.status = ContractStatus.completed →
        ∃ c', ((step cfg models)^[n] s).contracts.lookup k = some c' ∧
          c'.status = ContractStatus.completed) := by
  refine ⟨step_contracts_noModels cfg models s hf hc hm hs, ?_, ?_, ?_⟩
  · intro c d hd hlt hst
    simp only [processOneContract, hd]
    rw [if_pos ⟨hlt, by rw [hst]; rfl⟩]
  · intro c
    exact processOneContract_cases s.current_time c
  · intro n k c hl hcs
    exact completed_persists cfg models hf hc hm hs n s k c hl hcs

/-- Witness for C4: on 2024-01-06 the sample ACTIVE contract ending
2024-01-05 completes, and in a strategy-free run an already COMPLETED
contract is still COMPLETED three steps later. -/
theorem contract_lifecycle_spec_witness :
    processOneContract (mkTime 2024 1 6) sampleContract =
      { sampleContract with status := ContractStatus.completed }
    ∧ (((step cfgTenDays trivModels)^[3] sampleCompletedState).contracts.lookup
        "k1").map Contract.status = some ContractStatus.completed := by
  constructor
  · exact (contract_lifecycle_spec cfgTenDays trivModels sampleState
      rfl rfl rfl rfl).2.1 sampleContract (mkDay 2024 1 5) rfl (by decide) rfl
  · obtain ⟨c', hl, hcs⟩ := (contract_lifecycle_spec cfgTenDays trivModels
      sampleCompletedState rfl rfl rfl rfl).2.2.2 3 "k1"
      { sampleContract with status := ContractStatus.completed } rfl rfl
    rw [hl, Option.map_some', hcs]

/-- C5: with zero scenarios and zero behavioral models every call to
step() appends exactly one snapshot, built from the pre-step state; its
compliance rate is 0 with no contracts and otherwise the number of
compliant contracts divided by the number of contracts, and its average
hourly rate is 0 with no freelancers and otherwise the arithmetic mean
of the hourly rates. -/
theorem snapshot_every_step_spec {μ σ ρ : Type} (cfg : SimulationConfig)
    (models : Models μ σ ρ) (s : EngineState μ)
    (hf : models.freelancer_behavior_model = none)
    (hc : models.client_behavior_model = none)
    (hm : models.market_dynamics_model = none)
    (hs : models.scenarios = []) :
    (step cfg models s).market_snapshots =
      s.market_snapshots ++ [mkMarketSnapshot s]
    ∧ (mkMarketSnapshot s).compliance_rate =
        (if s.contracts = [] then 0 else
          ((s.contracts.values.filter (fun c =>
            c.sb988_compliant = ComplianceStatus.compliant)).length : ℚ) /
          (s.contracts.length : ℚ))
    ∧ (mkMarketSnapshot s).average_hourly_rate =
        (if s.freelancers = [] then 0 else
          (s.freelancers.values.map (fun f => f.hourly_rate)).sum /
          (s.freelancers.length : ℚ)) := by
  refine ⟨?_, ?_, ?_⟩
  · rw [step_market_snapshots, applyMarketDynamics_none models s hm]
  · show calculateComplianceRate s = _
    unfold calculateComplianceRate
    by_cases hE : s.contracts = []
    · simp [hE]
    · have hne : s.contracts.isEmpty = false := by
        simp [List.isEmpty_iff, hE]
      rw [hne, if_neg hE]
      simp only [Bool.false_eq_true, if_false, complianceValue_eq,
        List.countP_eq_length_filter]
  · show calculateAverageHourlyRate s = _
    unfold calculateAverageHourlyRate npMean
    by_cases hE : s.freelancers = []
    · simp [hE]
    · have hne : s.freelancers.isEmpty = false := by
        simp [List.isEmpty_iff, hE]
      rw [hne, if_neg hE]
      simp [EntityMap.values]

/-- Witness for C5: on the sample state (one compliant contract, one
freelancer at rate 60) the step appends the snapshot of the pre-step
state, with compliance rate 1 and average hourly rate 60. -/
theorem snapshot_every_step_spec_witness :
    (step cfgTenDays trivModels sampleState).market_snapshots =
      sampleState.market_snapshots ++ [mkMarketSnapshot sampleState]
    ∧ (mkMarketSnapshot sampleState).compliance_rate = 1
    ∧ (mkMarketSnapshot sampleState).average_hourly_rate = 60 := by
  have h := snapshot_every_step_spec cfgTenDays trivModels sampleState
    rfl rfl rfl rfl
  refine ⟨h.1, ?_, ?_⟩
  · rw [h.2.1]
    with_unfolding_all decide
  · rw [h.2.2]
    with_unfolding_all decide

/-- C6: the snapshot appended by phase 1 of step() reports as its
transaction volume the sum of the amounts of exactly those logged
transactions whose calendar date equals the calendar date of the
current step, each other transaction contributing nothing. -/
theorem snapshot_transaction_volume_spec {μ σ ρ : Type}
    (cfg : SimulationConfig) (models : Models μ σ ρ) (s : EngineState μ) :
    ((step cfg models s).market_snapshots.getLast?).map
        (fun sn => sn.total_transaction_volume) =
      some ((s.transactions.map (fun t =>
        if dateOf t.transaction_date = dateOf s.current_time then t.amount
        else 0)).sum) := by
  rw [step_market_snapshots, List.getLast?_concat]
  simp only [Option.map_some']
  refine congrArg some ?_
  show ((((applyMarketDynamics models s).transactions.filter (fun t =>
      dateOf t.transaction_date == dateOf
        (applyMarketDynamics models s).current_time)).map
      (fun t => t.amount)).sum) = _
  rw [applyMarketDynamics_transactions, applyMarketDynamics_current_time,
    volume_filter_sum_eq_ite_sum]

/-- C7: a run is a pure function of the configuration, the injected
strategies and the initial collector state: two runs with equal inputs
produce equal result aggregates, in particular equal snapshot sequences
and equal final entity collections.  The embedded engine draws on no
other state: the only randomness in the source is the one optional
np.random.seed call at construction, and no engine computation reads
the random stream afterwards. -/
theorem run_reproducible {μ σ ρ : Type} (cfg₁ cfg₂ : SimulationConfig)
    (models₁ models₂ : Models μ σ ρ) (m₁ m₂ : μ)
    (hcfg : cfg₁ = cfg₂) (hmod : models₁ = models₂) (hm : m₁ = m₂) :
    run cfg₁ models₁ m₁ = run cfg₂ models₂ m₂
    ∧ (run cfg₁ models₁ m₁).market_evolution =
        (run cfg₂ models₂ m₂).market_evolution
    ∧ (run cfg₁ models₁ m₁).freelancers = (run cfg₂ models₂ m₂).freelancers
    ∧ (run cfg₁ models₁ m₁).clients = (run cfg₂ models₂ m₂).clients
    ∧ (run cfg₁ models₁ m₁).contracts = (run cfg₂ models₂ m₂).contracts
    ∧ (run cfg₁ models₁ m₁).transactions =
        (run cfg₂ models₂ m₂).transactions := by
  subst hcfg
  subst hmod
  subst hm
  exact ⟨rfl, rfl, rfl, rfl, rfl, rfl⟩

/-- Witness for C7: the documented ten-day run reproduces itself. -/
theorem run_reproducible_witness :
    run cfgTenDays trivModels () = run cfgTenDays trivModels ()
    ∧ (run cfgTenDays trivModels ()).market_evolution =
        (run cfgTenDays trivModels ()).market_evolution
    ∧ (run cfgTenDays trivModels ()).freelancers =
        (run cfgTenDays trivModels ()).freelancers
    ∧ (run cfgTenDays trivModels ()).clients =
        (run cfgTenDays trivModels ()).clients
    ∧ (run cfgTenDays trivModels ()).contracts =
        (run cfgTenDays trivModels ()).contracts
    ∧ (run cfgTenDays trivModels ()).transactions =
        (run cfgTenDays trivModels ()).transactions :=
  run_reproducible cfgTenDays cfgTenDays trivModels trivModels () () rfl rfl rfl

/-- C8: the engine neither catches nor retries a raising injected
strategy, whichever kind it is.  Never-raising strategies make the
fallible step agree with the plain step.  A raising metrics collector
aborts the step with the error and the state exactly as phases 1 to 4
left it (prior phases not rolled back, time not advanced); a raising
first scenario aborts right after phase 3 with the remaining scenarios
never invoked; a raising market-dynamics model aborts inside phase 1
with the state untouched; a raising freelancer behavioral model aborts
in phase 2 with the phase-1 snapshot retained; a raising client
behavioral model aborts in phase 2 with the phase-1 snapshot and the
completed freelancer loop retained.  Through the while loop of run()
the same error and same partial state propagate out of the whole run,
for every one of these strategy kinds. -/
theorem strategy_error_propagation {ε μ σ ρ : Type} (cfg : SimulationConfig)
    (models : Models μ σ ρ) (s : EngineState μ) (e : ε) (res : ρ)
    (rest : List (ScenarioE ε ρ)) :
    stepE (ε := ε) cfg (liftModels models) s = .ok (step cfg models s)
    ∧ stepE cfg (failingCollectorModels models e) s =
        .error (e, applyRegulatoryScenarios models (processContracts
          (executeAgentBehaviors models (updateMarketConditions models s))))
    ∧ stepE cfg (failingScenarioModels models e res rest) s =
        .error (e, processContracts (executeAgentBehaviors models
          (updateMarketConditions models s)))
    ∧ stepE cfg (failingMarketModels models e) s = .error (e, s)
    ∧ ((updateMarketConditions models s).freelancers ≠ [] →
        stepE cfg (failingFreelancerModels models e) s =
          .error (e, updateMarketConditions models s))
    ∧ ((updateMarketConditions models s).clients ≠ [] →
        stepE cfg (failingClientModels models e) s =
          .error (e, executeAgentBehaviors
            { models with client_behavior_model := none }
            (updateMarketConditions models s)))
    ∧ (s.current_time ≤ cfg.end_date → 0 < cfg.max_iterations →
        runLoopE cfg (failingCollectorModels models e) s 0 =
          .error (e, applyRegulatoryScenarios models (processContracts
            (executeAgentBehaviors models
              (updateMarketConditions models s)))))
    ∧ (s.current_time ≤ cfg.end_date → 0 < cfg.max_iterations →
        runLoopE cfg (failingScenarioModels models e res rest) s 0 =
          .error (e, processContracts (executeAgentBehaviors models
            (updateMarketConditions models s))))
    ∧ (s.current_time ≤ cfg.end_date → 0 < cfg.max_iterations →
        runLoopE cfg (failingMarketModels models e) s 0 = .error (e, s))
    ∧ ((updateMarketConditions models s).freelancers ≠ [] →
        s.current_time ≤ cfg.end_date → 0 < cfg.max_iterations →
        runLoopE cfg (failingFreelancerModels models e) s 0 =
          .error (e, updateMarketConditions models s))
    ∧ ((updateMarketConditions models s).clients ≠ [] →
        s.current_time ≤ cfg.end_date → 0 < cfg.max_iterations →
        runLoopE cfg (failingClientModels models e) s 0 =
          .error (e, executeAgentBehaviors
            { models with client_behavior_model := none }
            (updateMarketConditions models s))) := by
  refine ⟨stepE_lift cfg models s, stepE_failingCollector cfg models e s,
    stepE_failingScenario cfg models e res rest s,
    stepE_failingMarket cfg models e s,
    fun hne => stepE_failingFreelancer cfg models e s hne,
    fun hne => stepE_failingClient cfg models e s hne,
    fun ht hmax => runLoopE_first_step_error cfg _ s _
      (stepE_failingCollector cfg models e s) ht hmax,
    fun ht hmax => runLoopE_first_step_error cfg _ s _
      (stepE_failingScenario cfg models e res rest s) ht hmax,
    fun ht hmax => runLoopE_first_step_error cfg _ s _
      (stepE_failingMarket cfg models e s) ht hmax,
    fun hne ht hmax => runLoopE_first_step_error cfg _ s _
      (stepE_failingFreelancer cfg models e s hne) ht hmax,
    fun hne ht hmax => runLoopE_first_step_error cfg _ s _
      (stepE_failingClient cfg models e s hne) ht hmax⟩

/-- Witness for C8: on the sample state (one freelancer, one client),
the lifted strategies step like the plain engine, while a raising
collector, first scenario, market-dynamics model, freelancer model or
client model aborts both step and run with the documented partial
states. -/
theorem strategy_error_propagation_witness :
    stepE (ε := String) cfgTenDays (liftModels trivModels) sampleState =
      .ok (step cfgTenDays trivModels sampleState)
    ∧ stepE cfgTenDays (failingCollectorModels trivModels "boom") sampleState =
        .error ("boom", applyRegulatoryScenarios trivModels (processContracts
          (executeAgentBehaviors trivModels
            (updateMarketConditions trivModels sampleState))))
    ∧ stepE cfgTenDays (failingScenarioModels trivModels "boom" () [])
        sampleState =
        .error ("boom", processContracts (executeAgentBehaviors trivModels
          (updateMarketConditions trivModels sampleState)))
    ∧ stepE cfgTenDays (failingMarketModels trivModels "boom") sampleState =
        .error ("boom", sampleState)
    ∧ stepE cfgTenDays (failingFreelancerModels trivModels "boom")
        sampleState =
        .error ("boom", updateMarketConditions trivModels sampleState)
    ∧ stepE cfgTenDays (failingClientModels trivModels "boom") sampleState =
        .error ("boom", executeAgentBehaviors
          { trivModels with client_behavior_model := none }
          (updateMarketConditions trivModels sampleState))
    ∧ runLoopE cfgTenDays (failingCollectorModels trivModels "boom")
        sampleState 0 =
        .error ("boom", applyRegulatoryScenarios trivModels (processContracts
          (executeAgentBehaviors trivModels
            (updateMarketConditions trivModels sampleState))))
    ∧ runLoopE cfgTenDays (failingScenarioModels trivModels "boom" () [])
        sampleState 0 =
        .error ("boom", processContracts (executeAgentBehaviors trivModels
          (updateMarketConditions trivModels sampleState)))
    ∧ runLoopE cfgTenDays (failingMarketModels trivModels "boom")
        sampleState 0 = .error ("boom", sampleState)
    ∧ runLoopE cfgTenDays (failingFreelancerModels trivModels "boom")
        sampleState 0 =
        .error ("boom", updateMarketConditions trivModels sampleState)
    ∧ runLoopE cfgTenDays (failingClientModels trivModels "boom")
        sampleState 0 =
        .error ("boom", executeAgentBehaviors
          { trivModels with client_behavior_model := none }
          (updateMarketConditions trivModels sampleState)) := by
  have h := strategy_error_propagation cfgTenDays trivModels sampleState
    "boom" () []
  have hfne : (updateMarketConditions trivModels sampleState).freelancers ≠
      [] := by with_unfolding_all decide
  have hcne : (updateMarketConditions trivModels sampleState).clients ≠
      [] := by with_unfolding_all decide
  have ht : sampleState.current_time ≤ cfgTenDays.end_date := by
    with_unfolding_all decide
  have hmax : 0 < cfgTenDays.max_iterations := by decide
  exact ⟨h.1, h.2.1, h.2.2.1, h.2.2.2.1,
    h.2.2.2.2.1 hfne,
    h.2.2.2.2.2.1 hcne,
    h.2.2.2.2.2.2.1 ht hmax,
    h.2.2.2.2.2.2.2.1 ht hmax,
    h.2.2.2.2.2.2.2.2.1 ht hmax,
    h.2.2.2.2.2.2.2.2.2.1 hfne ht hmax,
    h.2.2.2.2.2.2.2.2.2.2 hcne ht hmax⟩

theorem contract_postInit_id (c : Contract) (g : String) :
    (c.postInit g).id = if c.id = "" then g else c.id := by
  unfold Contract.postInit
  by_cases h1 : c.id = "" <;>
  by_cases h2 : c.deliverables = none <;>
  by_cases h3 : c.milestones = none <;>
  by_cases h4 : c.compliance_requirements = none <;>
    simp [h1, h2, h3, h4]

/-- C9: every entity type keeps a supplied non-empty id unchanged at
construction, replaces an empty id with the freshly generated token,
and therefore two entities built without explicit ids from distinct
generated tokens never share an id (the source draws each token from
uuid4, whose output the model treats as an externally supplied fresh
token). -/
theorem entity_id_assignment_spec :
    (∀ (f : Freelancer) (g : String), f.id ≠ "" → f.postInit g = f)
    ∧ (∀ (f : Freelancer) (g : String), f.id = "" → (f.postInit g).id = g)
    ∧ (∀ (c : Client) (g : String), c.id ≠ "" → c.postInit g = c)
    ∧ (∀ (c : Client) (g : String), c.id = "" → (c.postInit g).id = g)
    ∧ (∀ (k : Contract) (g : String),
        (k.postInit g).id = if k.id = "" then g else k.id)
    ∧ (∀ (t : Transaction) (g : String), t.id ≠ "" → t.postInit g = t)
    ∧ (∀ (t : Transaction) (g : String), t.id = "" → (t.postInit g).id = g)
    ∧ (∀ (x y : Freelancer) (gx gy : String), x.id = "" → y.id = "" →
        gx ≠ gy → (x.postInit gx).id ≠ (y.postInit gy).id)
    ∧ (∀ (x y : Client) (gx gy : String), x.id = "" → y.id = "" →
        gx ≠ gy → (x.postInit gx).id ≠ (y.postInit gy).id)
    ∧ (∀ (x y : Contract) (gx gy : String), x.id = "" → y.id = "" →
        gx ≠ gy → (x.postInit gx).id ≠ (y.postInit gy).id)
    ∧ (∀ (x y : Transaction) (gx gy : String), x.id = "" → y.id = "" →
        gx ≠ gy → (x.postInit gx).id ≠ (y.postInit gy).id) := by
  refine ⟨?_, ?_, ?_, ?_, contract_postInit_id, ?_, ?_, ?_, ?_, ?_, ?_⟩
  · intro f g h
    unfold Freelancer.postInit
    rw [if_neg h]
  · intro f g h
    unfold Freelancer.postInit
    rw [if_pos h]
  · intro c g h
    unfold Client.postInit
    rw [if_neg h]
  · intro c g h
    unfold Client.postInit
    rw [if_pos h]
  · intro t g h
    unfold Transaction.postInit
    rw [if_neg h]
  · intro t g h
    unfold Transaction.postInit
    rw [if_pos h]
  · intro x y gx gy hx hy hne
    unfold Freelancer.postInit
    rw [if_pos hx, if_pos hy]
    exact hne
  · intro x y gx gy hx hy hne
    unfold Client.postInit
    rw [if_pos hx, if_pos hy]
    exact hne
  · intro x y gx gy hx hy hne
    rw [contract_postInit_id, contract_postInit_id, if_pos hx, if_pos hy]
    exact hne
  · intro x y gx gy hx hy hne
    unfold Transaction.postInit
    rw [if_pos hx, if_pos hy]
    exact hne

def sampleTransaction : Transaction :=
  { id := "t1"
    contract_id := "k1"
    freelancer_id := "f1"
    client_id := "c1"
    amount := 100
    transaction_date := mkTime 2024 1 6
    payment_method := "ach"
    status := "completed" }

def blankFreelancer : Freelancer := { sampleFreelancer with id := "" }

def blankClient : Client := { sampleClient with id := "" }

def blankContract : Contract := { sampleContract with id := "" }

def blankTransaction : Transaction := { sampleTransaction with id := "" }

/-- Witness for C9: the sample entities keep their supplied ids; their
blank-id variants take the generated token, and distinct tokens yield
distinct ids. -/
theorem entity_id_assignment_spec_witness :
    sampleFreelancer.postInit "tokA" = sampleFreelancer
    ∧ (blankFreelancer.postInit "tokA").id = "tokA"
    ∧ sampleClient.postInit "tokA" = sampleClient
    ∧ (blankClient.postInit "tokA").id = "tokA"
    ∧ (sampleContract.postInit "tokA").id = "k1"
    ∧ (blankContract.postInit "tokA").id = "tokA"
    ∧ sampleTransaction.postInit "tokA" = sampleTransaction
    ∧ (blankTransaction.postInit "tokA").id = "tokA"
    ∧ (blankFreelancer.postInit "tokA").id ≠ (blankFreelancer.postInit "tokB").id
    ∧ (blankClient.postInit "tokA").id ≠ (blankClient.postInit "tokB").id
    ∧ (blankContract.postInit "tokA").id ≠ (blankContract.postInit "tokB").id
    ∧ (blankTransaction.postInit "tokA").id ≠
        (blankTransaction.postInit "tokB").id := by
  obtain ⟨hF1, hF2, hC1, hC2, hK, hT1, hT2, hDF, hDC, hDK, hDT⟩ :=
    entity_id_assignment_spec
  refine ⟨hF1 sampleFreelancer "tokA" (by decide), hF2 blankFreelancer "tokA" rfl,
    hC1 sampleClient "tokA" (by decide), hC2 blankClient "tokA" rfl,
    (hK sampleContract "tokA").trans (by decide),
    (hK blankContract "tokA").trans (by decide),
    hT1 sampleTransaction "tokA" (by decide), hT2 blankTransaction "tokA" rfl,
    hDF blankFreelancer blankFreelancer "tokA" "tokB" rfl rfl (by decide),
    hDC blankClient blankClient "tokA" "tokB" rfl rfl (by decide),
    hDK blankContract blankContract "tokA" "tokB" rfl rfl (by decide),
    hDT blankTransaction blankTransaction "tokA" "tokB" rfl rfl (by decide)⟩

/-- C10: inside any single step, phase 1 always appends a snapshot, so
the market-state argument handed to every phase-2 behavior invocation
is that very snapshot and never the no-snapshot fallback: on the state
phase 2 receives, the snapshot list is non-empty and the
market_snapshots[-1]-or-none selector yields exactly the snapshot
appended in phase 1. -/
theorem phase_two_market_state_present {μ σ ρ : Type} (models : Models μ σ ρ)
    (s : EngineState μ) :
    (updateMarketConditions models s).market_snapshots ≠ []
    ∧ marketStateArg ((updateMarketConditions models s).market_snapshots) =
        some (mkMarketSnapshot (applyMarketDynamics models s)) := by
  constructor
  · rw [updateMarketConditions_market_snapshots]
    simp
  · rw [updateMarketConditions_market_snapshots]
    exact marketStateArg_concat _ _

end SB988
